import Mathlib

/-!
Shallow embedding of the attendance data access layer (src/backend.py,
class AttendanceDatabase) over an explicit database state.

Modelling conventions:
* The SQLite database is a record of tables, each a list of rows in
  insertion order.
* Dates and times are stored by the program as ISO-formatted TEXT; on
  well-formed values SQLite's textual comparisons and its
  date(d, "-7 days") arithmetic agree with chronological order, so dates
  and times are modelled as integers (day index / minute index).
* Python dicts passed as input are modelled as structures with Option
  fields for the keys read via dict.get; dict.get(key, default) becomes
  Option.getD.
* The current date (datetime.now) is an explicit parameter of the
  operations that read the clock, as is the first day of the current
  month for the dashboard query.
* Mutating operations return the (success, message) pair together with
  the new database state; the audit log table is part of that state.
* SQL comparison of a nullable column against a NULL parameter
  (column = NULL) is never true under SQL three-valued logic; this is
  modelled by sqlEqNullable.
* sha256 hex digests are modelled by an abstract digest function passed
  as a parameter; floating-point latitude and longitude columns (never
  read by any operation) are omitted.
-/

namespace Attendance

/-- Day index standing for an ISO date string. -/
abbrev Date := Int

/-- Minute index standing for a time-of-day string. -/
abbrev Time := Int

/-- Row of the professors table. -/
structure Professor where
  id : String
  name : String
  department : String
  contact : String
  email : String
  date_registered : Date
  is_active : Bool
deriving DecidableEq, Repr

/-- Row of the attendance_records table. -/
structure AttendanceRecord where
  rid : Nat
  professor_id : String
  session_id : Option Nat
  date : Date
  time_in : Time
  time_out : Option Time
  status : String
  venue : String
  remarks : String
  session_type : String
deriving DecidableEq, Repr

/-- Row of the attendance_sessions table. -/
structure Session where
  sid : Nat
  session_type : String
  venue : String
  remarks : String
  date : Date
  start_time : Time
  end_time : Option Time
  created_by : String
  qr_code_data : String
  is_active : Bool
deriving DecidableEq, Repr

/-- Row of the courses table. -/
structure Course where
  cid : Nat
  course_code : String
  course_name : String
  department : String
  units : Int
  semester : String
  academic_year : String
deriving DecidableEq, Repr

/-- Row of the admins table. -/
structure Admin where
  aid : Nat
  username : String
  password_hash : String
  full_name : String
  role : String
deriving DecidableEq, Repr

/-- Row of the system_logs audit table. -/
structure LogEntry where
  user_id : Option String
  action : String
  details : String
deriving DecidableEq, Repr

/-- The whole database state (the professor_courses table is omitted:
no claim refers to it). -/
structure DB where
  professors : List Professor
  attendance_records : List AttendanceRecord
  attendance_sessions : List Session
  courses : List Course
  admins : List Admin
  system_logs : List LogEntry
deriving DecidableEq, Repr

/-- The empty database produced by init_database on a fresh file. -/
def dbEmpty : DB := ⟨[], [], [], [], [], []⟩

/-- Input dict of add_professor. -/
structure ProfessorData where
  id : String
  name : String
  department : String
  contact : Option String
  email : Option String
deriving DecidableEq, Repr

/-- Input dict of record_attendance. -/
structure AttendanceData where
  professor_id : String
  session_id : Option Nat
  date : Date
  time_in : Time
  status : Option String
  venue : Option String
  session_type : Option String
  remarks : Option String
deriving DecidableEq, Repr

/-- Input dict of add_course. -/
structure CourseData where
  course_code : String
  course_name : String
  department : Option String
  units : Option Int
  semester : Option String
  academic_year : Option String
deriving DecidableEq, Repr

/-- Filters dict of get_attendance_records. -/
structure Filters where
  date : Option Date
  professor_id : Option String
  session_type : Option String
  department : Option String
  start_date : Option Date
  end_date : Option Date
deriving DecidableEq, Repr

/-- Filters dict with every key absent. -/
def noFilters : Filters := ⟨none, none, none, none, none, none⟩

/-- log_action: appends one row to system_logs. The except branch
(storage failure, printed and swallowed) is not modelled. -/
def log_action (db : DB) (action : String) (details : String)
    (user_id : Option String) : DB :=
  { db with system_logs := db.system_logs ++ [⟨user_id, action, details⟩] }

/-- SQL equality of a nullable column against a nullable parameter:
under three-valued logic, column = NULL is never true, so a comparison
involving NULL on either side selects no row. -/
def sqlEqNullable (a b : Option Nat) : Bool :=
  match a, b with
  | some x, some y => x == y
  | _, _ => false

/-- SQL BETWEEN a AND b, inclusive on both ends. -/
def inRange (a b x : Date) : Bool :=
  decide (a ≤ x) && decide (x ≤ b)

/-- The professor row inserted by add_professor: absent contact and
email become the empty string, date_registered is the current date,
is_active takes the schema default 1. -/
def professor_of_data (d : ProfessorData) (today : Date) : Professor :=
  ⟨d.id, d.name, d.department, d.contact.getD "", d.email.getD "", today, true⟩

/-- add_professor: the pre-insert SELECT rejects any state holding a row
whose id equals the given id or whose email equals the given email
normalized by dict.get(email, default empty string); otherwise the row
is inserted and ADD_PROFESSOR is logged. -/
def add_professor (db : DB) (d : ProfessorData) (today : Date) :
    (Bool × String) × DB :=
  if db.professors.any (fun p => p.id == d.id || p.email == d.email.getD "") then
    ((false, "Professor ID or email already exists"), db)
  else
    ((true, "Professor added successfully"),
      log_action { db with professors := db.professors ++ [professor_of_data d today] }
        "ADD_PROFESSOR" ("Added professor " ++ d.id) none)

/-- Next AUTOINCREMENT value of the attendance_records table. -/
def next_record_id (db : DB) : Nat :=
  (db.attendance_records.map (·.rid)).foldr max 0 + 1

/-- The attendance row inserted by record_attendance: time_out NULL,
status defaulting to Present, venue, session_type and remarks
defaulting to the empty string. -/
def record_of_data (db : DB) (d : AttendanceData) : AttendanceRecord :=
  ⟨next_record_id db, d.professor_id, d.session_id, d.date, d.time_in, none,
    d.status.getD "Present", d.venue.getD "", d.remarks.getD "", d.session_type.getD ""⟩

/-- record_attendance: the duplicate check compares professor_id,
session_id and date with SQL equality, so a NULL session_id parameter
matches no existing row (see sqlEqNullable); on the non-duplicate path
the row is inserted and RECORD_ATTENDANCE is logged. -/
def record_attendance (db : DB) (d : AttendanceData) : (Bool × String) × DB :=
  if db.attendance_records.any (fun r =>
      r.professor_id == d.professor_id && sqlEqNullable r.session_id d.session_id
        && r.date == d.date) then
    ((false, "Attendance already recorded for this session"), db)
  else
    ((true, "Attendance recorded successfully"),
      log_action { db with attendance_records := db.attendance_records ++ [record_of_data db d] }
        "RECORD_ATTENDANCE" ("Professor " ++ d.professor_id ++ " attendance recorded") none)

/-- Result of an SQL GROUP BY over a list of keys: one pair per distinct
key, holding COUNT(*) of its group. -/
def groupCounts (l : List String) : List (String × Nat) :=
  l.dedup.map (fun d => (d, l.count d))

/-- The departments of the rows of attendance_records JOIN professors ON
professor_id = id, restricted to records in the given date range: one
entry per join pair. -/
def dept_rows (db : DB) (start_date end_date : Date) : List String :=
  (db.attendance_records.filter (fun r => inRange start_date end_date r.date)).flatMap
    (fun r => (db.professors.filter (fun p => p.id == r.professor_id)).map (·.department))

/-- Return value of get_attendance_summary. -/
structure AttendanceSummary where
  total_attendance : Nat
  by_department : List (String × Nat)
  by_session_type : List (String × Nat)
  top_professors : List (String × Nat)
  date_range : String
deriving DecidableEq, Repr

/-- Comparator for the top-professors query: higher count first. -/
def byCountDesc (x y : String × Nat) : Bool :=
  decide (y.2 ≤ x.2)

/-- get_attendance_summary: COUNT(*) of records in range; department
counts over the join with professors; session-type counts over the bare
records table; top 10 professors by attendance count. -/
def get_attendance_summary (db : DB) (start_date end_date : Date) : AttendanceSummary :=
  let inR := db.attendance_records.filter (fun r => inRange start_date end_date r.date)
  let profIds := inR.flatMap
    (fun r => (db.professors.filter (fun p => p.id == r.professor_id)).map (·.id))
  let nameOf := fun (i : String) =>
    ((db.professors.filter (fun p => p.id == i)).map (·.name)).headD ""
  { total_attendance := inR.length
    by_department := groupCounts (dept_rows db start_date end_date)
    by_session_type := groupCounts (inR.map (·.session_type))
    top_professors :=
      ((profIds.dedup.map (fun i => (nameOf i, profIds.count i))).mergeSort byCountDesc).take 10
    date_range := toString start_date ++ " to " ++ toString end_date }

/-- Next AUTOINCREMENT value of the courses table. -/
def next_course_id (db : DB) : Nat :=
  (db.courses.map (·.cid)).foldr max 0 + 1

/-- The course row inserted by add_course: department defaults to the
empty string, units to 3, semester to the string 1st, academic_year to
the fixed string 2024-2025. -/
def course_of_data (db : DB) (d : CourseData) : Course :=
  ⟨next_course_id db, d.course_code, d.course_name, d.department.getD "",
    d.units.getD 3, d.semester.getD "1st", d.academic_year.getD "2024-2025"⟩

/-- add_course: there is no application-level duplicate check; a
duplicate course_code violates the UNIQUE constraint of the courses
table, sqlite3 raises IntegrityError, and the generic except branch
turns it into a failure return with nothing inserted. That observable
behaviour is modelled as a pre-insert test. add_course does not log. -/
def add_course (db : DB) (d : CourseData) : (Bool × String) × DB :=
  if db.courses.any (fun c => c.course_code == d.course_code) then
    ((false, "Error adding course: UNIQUE constraint failed: courses.course_code"), db)
  else
    ((true, "Course added successfully"),
      { db with courses := db.courses ++ [course_of_data db d] })

/-- authenticate_admin, parameterized by the digest function standing
for the sha256 hex digest: the SELECT compares username and stored
password_hash against the digest of the supplied password; fetchone
returns the first matching row; ADMIN_LOGIN is logged only on match. -/
def authenticate_admin (digest : String → String) (db : DB)
    (username password : String) : (Bool × Option Admin) × DB :=
  match db.admins.find? (fun a =>
      a.username == username && a.password_hash == digest password) with
  | some a =>
      ((true, some a),
        log_action db "ADMIN_LOGIN" ("Admin " ++ username ++ " logged in") none)
  | none => ((false, none), db)

/-- Row of the query of get_attendance_records: all record columns plus
the joined professor name and department. -/
structure JoinedRecord where
  record : AttendanceRecord
  name : String
  department : String
deriving DecidableEq, Repr

/-- WHERE clause of get_attendance_records: each filter key contributes
a conjunct only when present; the date range needs both endpoints. -/
def matches_filters (f : Filters) (j : JoinedRecord) : Bool :=
  (match f.date with | some d => j.record.date == d | none => true) &&
  (match f.professor_id with | some p => j.record.professor_id == p | none => true) &&
  (match f.session_type with | some s => j.record.session_type == s | none => true) &&
  (match f.department with | some dep => j.department == dep | none => true) &&
  (match f.start_date, f.end_date with
    | some a, some b => inRange a b j.record.date
    | _, _ => true)

/-- ORDER BY date DESC, time_in DESC. -/
def recent_first (x y : JoinedRecord) : Bool :=
  decide (y.record.date < x.record.date) ||
    (x.record.date == y.record.date && decide (y.record.time_in ≤ x.record.time_in))

/-- get_attendance_records: inner join with professors, optional
filters, ordered by date descending then time_in descending. -/
def get_attendance_records (db : DB) (f : Filters) : List JoinedRecord :=
  let joined := db.attendance_records.flatMap (fun r =>
    (db.professors.filter (fun p => p.id == r.professor_id)).map
      (fun p => ⟨r, p.name, p.department⟩))
  (joined.filter (matches_filters f)).mergeSort recent_first

/-- export_to_excel: the result is the returned string, the new
database state, and the file written as an optional pair of path and
rows (none when nothing is written). An absent output path defaults to
a name built from the current timestamp. When the query yields no rows
the function returns the empty string before writing or logging. -/
def export_to_excel (db : DB) (f : Filters) (output_path : Option String)
    (timestamp : String) : String × DB × Option (String × List JoinedRecord) :=
  let path := output_path.getD ("attendance_report_" ++ timestamp ++ ".xlsx")
  let records := get_attendance_records db f
  if records.isEmpty then
    ("", db, none)
  else
    (path, log_action db "EXPORT_EXCEL" ("Exported to " ++ path) none,
      some (path, records))

/-- Return value of get_daily_attendance_stats. -/
structure DailyStats where
  date : Date
  total_professors : Nat
  attended_today : Nat
  attendance_rate : Rat
  by_department : List (String × Nat)
  absent_today : Int
deriving DecidableEq, Repr

/-- get_daily_attendance_stats: total counts active professors,
attended counts DISTINCT professor_id over the bare records table with
no join against professors, the rate guards division by zero, the
department breakdown LEFT JOINs active professors against that day's
records, and absent is total minus attended computed in Python
arithmetic (modelled in Int, so it may be negative). -/
def get_daily_attendance_stats (db : DB) (date : Date) : DailyStats :=
  let total := (db.professors.filter (·.is_active)).length
  let attended :=
    ((db.attendance_records.filter (fun r => r.date == date)).map (·.professor_id)).dedup.length
  let activeProfs := db.professors.filter (·.is_active)
  let depts := (activeProfs.map (·.department)).dedup
  { date := date
    total_professors := total
    attended_today := attended
    attendance_rate := if total > 0 then (attended : Rat) / (total : Rat) * 100 else 0
    by_department := depts.map (fun dep =>
      (dep, ((activeProfs.filter (fun p => p.department == dep &&
        db.attendance_records.any (fun r => r.professor_id == p.id && r.date == date))).map
          (·.id)).dedup.length))
    absent_today := (total : Int) - (attended : Int) }

/-- Return value of get_dashboard_stats. -/
structure DashboardStats where
  total_professors : Nat
  today_attendance : Nat
  month_attendance : Nat
  active_sessions : Nat
  attendance_rate : Rat
  recent_attendance : List (Date × Nat)
deriving DecidableEq, Repr

/-- Comparator for the trailing-7-day grouping: later date first. -/
def date_desc (a b : Date) : Bool :=
  decide (b ≤ a)

/-- Dates of the rows kept by the trailing-7-day query of
get_dashboard_stats: every record dated at least today minus 7; the
query has no upper bound. -/
def recent_dates (db : DB) (today : Date) : List Date :=
  (db.attendance_records.filter (fun r => decide (today - 7 ≤ r.date))).map (·.date)

/-- The day-to-count mapping of get_dashboard_stats: the kept rows
grouped by date, ordered date-descending, each group carrying its
COUNT(*). -/
def recent_attendance_map (db : DB) (today : Date) : List (Date × Nat) :=
  ((recent_dates db today).dedup.mergeSort date_desc).map
    (fun d => (d, (recent_dates db today).count d))

/-- get_dashboard_stats; today stands for datetime.now and month_start
for the first day of the current month (datetime.now().replace(day=1)),
both explicit parameters here. The trailing-7-day query keeps every
record with date at least today minus 7 — it has no upper bound — and
groups the kept rows by date, ordered date-descending. -/
def get_dashboard_stats (db : DB) (today month_start : Date) : DashboardStats :=
  let total := (db.professors.filter (·.is_active)).length
  let todayAtt :=
    ((db.attendance_records.filter (fun r => r.date == today)).map (·.professor_id)).dedup.length
  { total_professors := total
    today_attendance := todayAtt
    month_attendance :=
      (db.attendance_records.filter (fun r => inRange month_start today r.date)).length
    active_sessions :=
      (db.attendance_sessions.filter (fun s => s.date == today && s.is_active)).length
    attendance_rate := if total > 0 then (todayAtt : Rat) / (total : Rat) * 100 else 0
    recent_attendance := recent_attendance_map db today }

/-! ### Shared helper lemmas -/

/-- The pre-insert existence check of add_professor, as a proposition. -/
theorem add_professor_check_iff (db : DB) (d : ProfessorData) :
    (db.professors.any (fun p => p.id == d.id || p.email == d.email.getD "") = true) ↔
    ∃ p ∈ db.professors, p.id = d.id ∨ p.email = d.email.getD "" := by
  simp [List.any_eq_true]

/-- Sorting returns the empty list exactly on the empty list. -/
theorem mergeSort_eq_nil_iff {α : Type} {r : α → α → Bool} {l : List α} :
    l.mergeSort r = [] ↔ l = [] := by
  constructor
  · intro h
    have hlen : (l.mergeSort r).length = l.length := List.length_mergeSort _
    rw [h] at hlen
    exact List.length_eq_zero.mp hlen.symm
  · rintro rfl
    simp

/-- The query of get_attendance_records is empty exactly when the
filtered join is, the final ORDER BY being a permutation. -/
theorem get_attendance_records_eq_nil_iff (db : DB) (f : Filters) :
    get_attendance_records db f = [] ↔
    (db.attendance_records.flatMap (fun r =>
      (db.professors.filter (fun p => p.id == r.professor_id)).map
        (fun p => (⟨r, p.name, p.department⟩ : JoinedRecord)))).filter
          (matches_filters f) = [] := by
  unfold get_attendance_records
  exact mergeSort_eq_nil_iff

/-- The duplicate course_code test of add_course, as a proposition. -/
theorem add_course_check_iff (db : DB) (d : CourseData) :
    (db.courses.any (fun c => c.course_code == d.course_code) = true) ↔
    ∃ c ∈ db.courses, c.course_code = d.course_code := by
  simp [List.any_eq_true]

/-! ### C1 -/

/-- Concrete check-in with no session: professor P1, date 1, 08:00. -/
def c1_data : AttendanceData := ⟨"P1", none, 1, 480, none, none, none, none⟩

/-- C1: the claim fails on the code. Starting from the empty database,
recording c1_data succeeds; a row with the same
(professor_id, session_id, date) triple — session_id NULL — then
exists, yet recording c1_data again succeeds as well instead of failing
with DuplicateAttendance, and two matching rows remain: the SQL
equality session_id = NULL in the duplicate check never matches. -/
theorem c1_null_session_duplicate_not_detected :
    (record_attendance dbEmpty c1_data).1.1 = true ∧
    (record_attendance dbEmpty c1_data).2.attendance_records.any
      (fun r => r.professor_id == "P1" && r.session_id == none && r.date == 1) = true ∧
    (record_attendance (record_attendance dbEmpty c1_data).2 c1_data).1.1 = true ∧
    ((record_attendance (record_attendance dbEmpty c1_data).2 c1_data).2.attendance_records.filter
      (fun r => r.professor_id == "P1" && r.session_id == none && r.date == 1)).length = 2 := by
  decide

/-! ### C4 -/

/-- C4: with zero active professors, both get_daily_attendance_stats
(for any date) and get_dashboard_stats return attendance_rate = 0: the
division is guarded, not propagated. -/
theorem c4_zero_active_professors_rate_zero (db : DB) (d today month_start : Date)
    (h : (db.professors.filter (·.is_active)).length = 0) :
    (get_daily_attendance_stats db d).attendance_rate = 0 ∧
    (get_dashboard_stats db today month_start).attendance_rate = 0 := by
  constructor
  · simp [get_daily_attendance_stats, h]
  · simp [get_dashboard_stats, h]

/-- Database holding one inactive professor and one of their records. -/
def c4_db : DB :=
  { dbEmpty with
    professors := [⟨"P1", "Ana", "CS", "", "a@x", 0, false⟩]
    attendance_records := [⟨1, "P1", some 1, 1, 480, none, "Present", "", "", ""⟩] }

/-- Witness for C4 at a concrete state with no active professor. -/
theorem c4_zero_active_professors_rate_zero_witness :
    (get_daily_attendance_stats c4_db 1).attendance_rate = 0 ∧
    (get_dashboard_stats c4_db 1 1).attendance_rate = 0 :=
  c4_zero_active_professors_rate_zero c4_db 1 1 1 (by decide)

/-! ### C5 -/

/-- C5: add_professor fails with the duplicate message and leaves the
state unchanged exactly when some stored professor has the given id or
the given (normalized) email; otherwise it succeeds and appends the new
professor, whose date_registered is the current date. -/
theorem c5_add_professor_duplicate_and_insert (db : DB) (d : ProfessorData) (today : Date) :
    ((∃ p ∈ db.professors, p.id = d.id ∨ p.email = d.email.getD "") →
      (add_professor db d today).1 = (false, "Professor ID or email already exists") ∧
      (add_professor db d today).2 = db) ∧
    ((¬ ∃ p ∈ db.professors, p.id = d.id ∨ p.email = d.email.getD "") →
      (add_professor db d today).1 = (true, "Professor added successfully") ∧
      (add_professor db d today).2.professors =
        db.professors ++ [professor_of_data d today] ∧
      (professor_of_data d today).date_registered = today) := by
  constructor
  · intro hex
    simp [add_professor, (add_professor_check_iff db d).mpr hex]
  · intro hnex
    have hc : ¬ (db.professors.any
        (fun p => p.id == d.id || p.email == d.email.getD "") = true) :=
      fun hc => hnex ((add_professor_check_iff db d).mp hc)
    simp [add_professor, hc, log_action, professor_of_data]

/-- Database holding one professor, for the C5 witness. -/
def c5_db : DB :=
  { dbEmpty with professors := [⟨"P1", "Ana", "CS", "", "a@x", 0, true⟩] }

/-- Registration data reusing the stored id P1. -/
def c5_dup : ProfessorData := ⟨"P1", "Bea", "CS", none, some "b@x"⟩

/-- Registration data with a fresh id and a fresh email. -/
def c5_new : ProfessorData := ⟨"P2", "Bea", "CS", none, some "b@x"⟩

/-- Witness for C5: both branches at concrete inputs. -/
theorem c5_add_professor_duplicate_and_insert_witness :
    ((add_professor c5_db c5_dup 5).1 = (false, "Professor ID or email already exists") ∧
      (add_professor c5_db c5_dup 5).2 = c5_db) ∧
    ((add_professor c5_db c5_new 5).1 = (true, "Professor added successfully") ∧
      (add_professor c5_db c5_new 5).2.professors =
        c5_db.professors ++ [professor_of_data c5_new 5] ∧
      (professor_of_data c5_new 5).date_registered = 5) :=
  ⟨(c5_add_professor_duplicate_and_insert c5_db c5_dup 5).1 (by decide),
    (c5_add_professor_duplicate_and_insert c5_db c5_new 5).2 (by decide)⟩

/-! ### C9 -/

/-- C9: when some stored professor has the empty-string email and the
input omits its email, add_professor reports a duplicate and inserts
nothing — the absent email is normalized to the empty string on both
the duplicate check and the stored side. -/
theorem c9_absent_email_collides_with_empty_email (db : DB) (d : ProfessorData)
    (today : Date) (hemail : d.email = none)
    (hexist : ∃ p ∈ db.professors, p.email = "") :
    (add_professor db d today).1.1 = false ∧ (add_professor db d today).2 = db := by
  obtain ⟨p, hp, hpe⟩ := hexist
  have hc : db.professors.any
      (fun q => q.id == d.id || q.email == d.email.getD "") = true :=
    List.any_eq_true.mpr ⟨p, hp, by simp [hemail, hpe]⟩
  simp [add_professor, hc]

/-- Database holding one professor stored with the empty email. -/
def c9_db : DB :=
  { dbEmpty with professors := [⟨"P1", "Ana", "CS", "", "", 0, true⟩] }

/-- Registration data with a fresh, unused id and no email key. -/
def c9_d : ProfessorData := ⟨"P9", "Bea", "CS", none, none⟩

/-- Witness for C9: the id P9 is unused, yet the call fails and changes
nothing. -/
theorem c9_absent_email_collides_with_empty_email_witness :
    (∀ p ∈ c9_db.professors, p.id ≠ c9_d.id) ∧
    (add_professor c9_db c9_d 5).1.1 = false ∧
    (add_professor c9_db c9_d 5).2 = c9_db :=
  ⟨by decide,
    (c9_absent_email_collides_with_empty_email c9_db c9_d 5 rfl (by decide)).1,
    (c9_absent_email_collides_with_empty_email c9_db c9_d 5 rfl (by decide)).2⟩

/-! ### C8 -/

/-- C8: with no stored course sharing the course_code, add_course
succeeds and appends the row built by course_of_data, whose units,
semester and academic_year fall back to 3, 1st and the fixed string
2024-2025 when the corresponding input keys are absent; with a stored
duplicate course_code it fails and inserts nothing. -/
theorem c8_add_course_defaults_and_duplicate (db : DB) (d : CourseData) :
    ((¬ ∃ c ∈ db.courses, c.course_code = d.course_code) →
      (add_course db d).1.1 = true ∧
      (add_course db d).2.courses = db.courses ++ [course_of_data db d] ∧
      (d.units = none → (course_of_data db d).units = 3) ∧
      (d.semester = none → (course_of_data db d).semester = "1st") ∧
      (d.academic_year = none → (course_of_data db d).academic_year = "2024-2025")) ∧
    ((∃ c ∈ db.courses, c.course_code = d.course_code) →
      (add_course db d).1.1 = false ∧ (add_course db d).2 = db) := by
  constructor
  · intro hnex
    have hc : ¬ (db.courses.any (fun c => c.course_code == d.course_code) = true) :=
      fun hc => hnex ((add_course_check_iff db d).mp hc)
    refine ⟨by simp [add_course, hc], by simp [add_course, hc], ?_, ?_, ?_⟩
    · intro h; simp [course_of_data, h]
    · intro h; simp [course_of_data, h]
    · intro h; simp [course_of_data, h]
  · intro hex
    simp [add_course, (add_course_check_iff db d).mpr hex]

/-- Course data with every optional key absent. -/
def c8_d : CourseData := ⟨"CS101", "Intro", none, none, none, none⟩

/-- Database already holding the course inserted from c8_d. -/
def c8_db : DB := (add_course dbEmpty c8_d).2

/-- Witness for C8: fresh insert with all three defaults, then a
duplicate failure. -/
theorem c8_add_course_defaults_and_duplicate_witness :
    ((add_course dbEmpty c8_d).1.1 = true ∧
      (course_of_data dbEmpty c8_d).units = 3 ∧
      (course_of_data dbEmpty c8_d).semester = "1st" ∧
      (course_of_data dbEmpty c8_d).academic_year = "2024-2025") ∧
    ((add_course c8_db c8_d).1.1 = false ∧ (add_course c8_db c8_d).2 = c8_db) :=
  ⟨⟨((c8_add_course_defaults_and_duplicate dbEmpty c8_d).1 (by decide)).1,
      ((c8_add_course_defaults_and_duplicate dbEmpty c8_d).1 (by decide)).2.2.1 rfl,
      ((c8_add_course_defaults_and_duplicate dbEmpty c8_d).1 (by decide)).2.2.2.1 rfl,
      ((c8_add_course_defaults_and_duplicate dbEmpty c8_d).1 (by decide)).2.2.2.2 rfl⟩,
    (c8_add_course_defaults_and_duplicate c8_db c8_d).2 (by decide)⟩

/-! ### C6 -/

/-- C6: authenticate_admin succeeds — returning true, a stored admin
row matching both the username and the digest of the supplied password,
and appending the ADMIN_LOGIN audit row — exactly when such an admin
row exists; in every other case it returns (false, none) and leaves the
state untouched. -/
theorem c6_authenticate_characterization (digest : String → String) (db : DB)
    (u pw : String) :
    ((∃ a ∈ db.admins, a.username = u ∧ a.password_hash = digest pw) →
      (authenticate_admin digest db u pw).1.1 = true ∧
      (∃ a ∈ db.admins, a.username = u ∧ a.password_hash = digest pw ∧
        (authenticate_admin digest db u pw).1.2 = some a) ∧
      (authenticate_admin digest db u pw).2.system_logs =
        db.system_logs ++ [⟨none, "ADMIN_LOGIN", "Admin " ++ u ++ " logged in"⟩]) ∧
    ((¬ ∃ a ∈ db.admins, a.username = u ∧ a.password_hash = digest pw) →
      (authenticate_admin digest db u pw).1 = (false, none) ∧
      (authenticate_admin digest db u pw).2 = db) := by
  cases hfind : db.admins.find? (fun a =>
      a.username == u && a.password_hash == digest pw) with
  | none =>
    have hall := List.find?_eq_none.mp hfind
    constructor
    · rintro ⟨a, ha, h1, h2⟩
      exact absurd (by simp [h1, h2]) (hall a ha)
    · intro _
      simp [authenticate_admin, hfind]
  | some a =>
    have hmem : a ∈ db.admins := List.mem_of_find?_eq_some hfind
    have hpred := List.find?_some hfind
    simp only [Bool.and_eq_true, beq_iff_eq] at hpred
    constructor
    · intro _
      refine ⟨by simp [authenticate_admin, hfind], ⟨a, hmem, hpred.1, hpred.2, ?_⟩, ?_⟩
      · simp [authenticate_admin, hfind]
      · simp [authenticate_admin, hfind, log_action]
    · intro hn
      exact absurd ⟨a, hmem, hpred.1, hpred.2⟩ hn

/-- Digest standing in for the sha256 hex digest in the C6 witness. -/
def c6_digest : String → String := fun s => s ++ "#"

/-- Database holding one admin whose stored hash is the digest of pw. -/
def c6_db : DB := { dbEmpty with admins := [⟨1, "root", "pw#", "Root", "admin"⟩] }

/-- Witness for C6: a matching login succeeds and logs; a wrong
password fails, returns none and changes nothing. -/
theorem c6_authenticate_characterization_witness :
    ((authenticate_admin c6_digest c6_db "root" "pw").1.1 = true ∧
      (∃ a ∈ c6_db.admins, a.username = "root" ∧ a.password_hash = c6_digest "pw" ∧
        (authenticate_admin c6_digest c6_db "root" "pw").1.2 = some a) ∧
      (authenticate_admin c6_digest c6_db "root" "pw").2.system_logs =
        c6_db.system_logs ++
          [⟨none, "ADMIN_LOGIN", "Admin " ++ "root" ++ " logged in"⟩]) ∧
    ((authenticate_admin c6_digest c6_db "root" "bad").1 = (false, none) ∧
      (authenticate_admin c6_digest c6_db "root" "bad").2 = c6_db) :=
  ⟨(c6_authenticate_characterization c6_digest c6_db "root" "pw").1 (by decide),
    (c6_authenticate_characterization c6_digest c6_db "root" "bad").2 (by decide)⟩

/-! ### C7 -/

/-- C7: when the filtered query yields no rows, export_to_excel returns
the empty string, writes no file and leaves the state — hence the audit
log — untouched; when it yields at least one row, the file is written
at the chosen path (the given one, or the timestamped default) and that
path is returned, with EXPORT_EXCEL logged. -/
theorem c7_export_empty_and_nonempty (db : DB) (f : Filters) (out : Option String)
    (ts : String) :
    ((get_attendance_records db f = []) →
      (export_to_excel db f out ts).1 = "" ∧
      (export_to_excel db f out ts).2.2 = none ∧
      (export_to_excel db f out ts).2.1 = db) ∧
    ((get_attendance_records db f ≠ []) →
      (export_to_excel db f out ts).1 =
        out.getD ("attendance_report_" ++ ts ++ ".xlsx") ∧
      (export_to_excel db f out ts).2.2 =
        some (out.getD ("attendance_report_" ++ ts ++ ".xlsx"),
          get_attendance_records db f) ∧
      (export_to_excel db f out ts).2.1.system_logs =
        db.system_logs ++ [⟨none, "EXPORT_EXCEL",
          "Exported to " ++ out.getD ("attendance_report_" ++ ts ++ ".xlsx")⟩]) := by
  constructor
  · intro h
    simp [export_to_excel, h]
  · intro h
    simp [export_to_excel, h, log_action]

/-- Database holding one professor and one of their records, so the
unfiltered query is nonempty. -/
def c7_db : DB :=
  { dbEmpty with
    professors := [⟨"P1", "Ana", "CS", "", "a@x", 0, true⟩]
    attendance_records := [⟨1, "P1", some 1, 1, 480, none, "Present", "", "", ""⟩] }

/-- Witness for C7: the empty database exports nothing; c7_db exports
one row to the default timestamped path. -/
theorem c7_export_empty_and_nonempty_witness :
    ((export_to_excel dbEmpty noFilters none "20240101_000000").1 = "" ∧
      (export_to_excel dbEmpty noFilters none "20240101_000000").2.2 = none ∧
      (export_to_excel dbEmpty noFilters none "20240101_000000").2.1 = dbEmpty) ∧
    ((export_to_excel c7_db noFilters none "20240101_000000").1 =
        (none : Option String).getD ("attendance_report_" ++ "20240101_000000" ++ ".xlsx") ∧
      (export_to_excel c7_db noFilters none "20240101_000000").2.2 =
        some ((none : Option String).getD ("attendance_report_" ++ "20240101_000000" ++ ".xlsx"),
          get_attendance_records c7_db noFilters) ∧
      (export_to_excel c7_db noFilters none "20240101_000000").2.1.system_logs =
        c7_db.system_logs ++ [⟨none, "EXPORT_EXCEL", "Exported to " ++
          (none : Option String).getD ("attendance_report_" ++ "20240101_000000" ++ ".xlsx")⟩]) :=
  ⟨(c7_export_empty_and_nonempty dbEmpty noFilters none "20240101_000000").1
      ((get_attendance_records_eq_nil_iff dbEmpty noFilters).mpr (by decide)),
    (c7_export_empty_and_nonempty c7_db noFilters none "20240101_000000").2
      (by rw [Ne, get_attendance_records_eq_nil_iff]; decide)⟩

/-! ### C2 -/

/-- Summing the per-group COUNT(*) values of a GROUP BY recovers the
number of grouped rows. -/
theorem sum_groupCounts (l : List String) : ((groupCounts l).map Prod.snd).sum = l.length := by
  unfold groupCounts
  rw [List.map_map]
  have hcomp : (Prod.snd ∘ fun d => (d, l.count d)) = fun d => l.count d := rfl
  rw [hcomp, ← List.sum_toFinset _ (List.nodup_dedup l),
    List.toFinset.ext (fun x => List.mem_dedup), List.sum_toFinset_count_eq_length]

/-- With pairwise-distinct professor ids, filtering the professors
table by an id that occurs in it yields exactly one row. -/
theorem filter_id_length_one (ps : List Professor) (k : String)
    (h : (ps.map (·.id)).Nodup) (hx : ∃ p ∈ ps, p.id = k) :
    (ps.filter (fun p => p.id == k)).length = 1 := by
  induction ps with
  | nil => simp at hx
  | cons a t ih =>
    simp only [List.map_cons, List.nodup_cons, List.mem_map] at h
    obtain ⟨hna, hnd⟩ := h
    by_cases hak : a.id = k
    · have ht : t.filter (fun p => p.id == k) = [] := by
        apply List.filter_eq_nil_iff.mpr
        intro p hp
        simpa using fun hpk => hna ⟨p, hp, hpk.trans hak.symm⟩
      simp [List.filter_cons, hak, ht]
    · obtain ⟨p, hp, hpk⟩ := hx
      rcases List.mem_cons.mp hp with rfl | hpt
      · exact absurd hpk hak
      · have := ih hnd ⟨p, hpt, hpk⟩
        simp [List.filter_cons, hak, this]

/-- Database holding one attendance record whose professor_id matches
no professors row (record_attendance never checks registration, and
SQLite does not enforce the foreign key by default, so this state is
reachable). -/
def c2_db : DB :=
  { dbEmpty with
    attendance_records := [⟨1, "GHOST", some 1, 1, 480, none, "Present", "", "", ""⟩] }

/-- C2, counterexample to the claim as stated: with a record whose
professor_id is unregistered, the record counts in total_attendance
but in no department — COUNT(*) runs over the bare table while the
department breakdown joins against professors — so the by-department
counts do not sum to the total. -/
theorem c2_by_department_sum_counterexample :
    ((get_attendance_summary c2_db 0 2).by_department.map Prod.snd).sum ≠
      (get_attendance_summary c2_db 0 2).total_attendance := by
  decide

/-- C2, amended: when professor ids are pairwise distinct (the primary
key invariant) and every record refers to a registered professor, the
by-department counts of get_attendance_summary sum exactly to its
total_attendance. -/
theorem c2_by_department_sums_to_total (db : DB) (a b : Date)
    (hids : (db.professors.map (·.id)).Nodup)
    (hreg : ∀ r ∈ db.attendance_records, ∃ p ∈ db.professors, p.id = r.professor_id) :
    ((get_attendance_summary db a b).by_department.map Prod.snd).sum =
      (get_attendance_summary db a b).total_attendance := by
  have hproj1 : (get_attendance_summary db a b).by_department =
      groupCounts (dept_rows db a b) := rfl
  have hproj2 : (get_attendance_summary db a b).total_attendance =
      (db.attendance_records.filter (fun r => inRange a b r.date)).length := rfl
  rw [hproj1, hproj2, sum_groupCounts]
  unfold dept_rows
  rw [List.length_flatMap]
  have h1 : ∀ r ∈ db.attendance_records.filter (fun r => inRange a b r.date),
      ((db.professors.filter (fun p => p.id == r.professor_id)).map (·.department)).length
        = 1 := by
    intro r hr
    rw [List.length_map]
    exact filter_id_length_one db.professors r.professor_id hids
      (hreg r (List.mem_of_mem_filter hr))
  simp only [Function.comp_def]
  rw [List.map_congr_left h1]
  simp

/-- The worked example of the spec: professors P1 in department A and
P2 in department B; records P1 on day 1, P1 on day 2, P2 on day 1. -/
def c2_example_db : DB :=
  { dbEmpty with
    professors := [⟨"P1", "Ana", "A", "", "a@x", 0, true⟩,
      ⟨"P2", "Bea", "B", "", "b@x", 0, true⟩]
    attendance_records := [⟨1, "P1", some 1, 1, 480, none, "Present", "", "", ""⟩,
      ⟨2, "P1", some 2, 2, 480, none, "Present", "", "", ""⟩,
      ⟨3, "P2", some 1, 1, 485, none, "Present", "", "", ""⟩] }

/-- Witness for the amended C2 on the spec's worked example. -/
theorem c2_by_department_sums_to_total_witness :
    ((get_attendance_summary c2_example_db 1 2).by_department.map Prod.snd).sum =
      (get_attendance_summary c2_example_db 1 2).total_attendance :=
  c2_by_department_sums_to_total c2_example_db 1 2 (by decide) (by decide)

/-! ### C3 -/

/-- Every date kept by the trailing-7-day query is at least today
minus 7. -/
theorem mem_recent_dates_lb (db : DB) (today x : Date)
    (hx : x ∈ recent_dates db today) : today - 7 ≤ x := by
  unfold recent_dates at hx
  obtain ⟨r, hr, rfl⟩ := List.mem_map.mp hx
  simpa using (List.mem_filter.mp hr).2

/-- For a day at least today minus 7, the trailing-7-day multiset
counts exactly the records of that day. -/
theorem count_recent_dates (db : DB) (today E : Date) (hE : today - 7 ≤ E) :
    (recent_dates db today).count E =
      (db.attendance_records.filter (fun r => r.date == E)).length := by
  unfold recent_dates
  show List.countP (fun x => x == E)
      ((db.attendance_records.filter (fun r => decide (today - 7 ≤ r.date))).map (·.date)) = _
  rw [List.countP_map, List.countP_filter, ← List.countP_eq_length_filter]
  apply List.countP_congr
  intro r _
  by_cases hd : r.date = E
  · simp [Function.comp, hd, hE]
  · simp [Function.comp, hd]

/-- C3, amended: the trailing-7-day mapping of get_dashboard_stats,
queried on day D, holds a pair (E, c) exactly when E is at least
D minus 7 and c is the nonzero number of records dated E. Every key is
bounded below by D minus 7 and carries the count of its day, but —
against the claim as stated — no upper bound D applies: records dated
after D also appear. -/
theorem c3_recent_attendance_characterization (db : DB) (today month_start E : Date)
    (c : Nat) :
    (E, c) ∈ (get_dashboard_stats db today month_start).recent_attendance ↔
      (today - 7 ≤ E ∧
        c = (db.attendance_records.filter (fun r => r.date == E)).length ∧ c ≠ 0) := by
  have hproj : (get_dashboard_stats db today month_start).recent_attendance =
      recent_attendance_map db today := rfl
  rw [hproj]
  unfold recent_attendance_map
  rw [((List.mergeSort_perm (recent_dates db today).dedup date_desc).map _).mem_iff]
  constructor
  · intro hmem
    obtain ⟨d, hd, heq⟩ := List.mem_map.mp hmem
    have hdE : d = E := congrArg Prod.fst heq
    have hcc : (recent_dates db today).count d = c := congrArg Prod.snd heq
    subst hdE
    have hdm : d ∈ recent_dates db today := List.mem_dedup.mp hd
    have hlb := mem_recent_dates_lb db today d hdm
    refine ⟨hlb, ?_, ?_⟩
    · rw [← hcc, count_recent_dates db today d hlb]
    · have hpos : 0 < (recent_dates db today).count d := List.count_pos_iff.mpr hdm
      omega
  · rintro ⟨hlb, hc, hne⟩
    have hlen : 0 < (db.attendance_records.filter (fun r => r.date == E)).length := by
      omega
    obtain ⟨r, hr⟩ := List.exists_mem_of_length_pos hlen
    have hrmem := List.mem_filter.mp hr
    have hdate : r.date = E := by simpa using hrmem.2
    have hEmem : E ∈ recent_dates db today := by
      unfold recent_dates
      exact List.mem_map.mpr ⟨r,
        List.mem_filter.mpr ⟨hrmem.1, by simp [hdate, hlb]⟩, hdate⟩
    refine List.mem_map.mpr ⟨E, List.mem_dedup.mpr hEmem, ?_⟩
    rw [Prod.mk.injEq]
    exact ⟨rfl, by rw [count_recent_dates db today E hlb, hc]⟩

/-- Database holding a single record dated day 15, in the future of the
query day 10. -/
def c3_db : DB :=
  { dbEmpty with
    attendance_records := [⟨1, "P1", some 1, 15, 480, none, "Present", "", "", ""⟩] }

/-- C3, counterexample to the claim as stated: querying the dashboard
on day 10, the future day 15 appears as a key of the trailing-7-day
mapping although it lies outside the window from day 3 to day 10. -/
theorem c3_future_record_in_recent_counterexample :
    (15, 1) ∈ (get_dashboard_stats c3_db 10 1).recent_attendance ∧
      ¬((15 : Int) ≤ 10) := by
  constructor
  · have hproj : (get_dashboard_stats c3_db 10 1).recent_attendance =
        recent_attendance_map c3_db 10 := rfl
    rw [hproj]
    unfold recent_attendance_map
    have hded : (recent_dates c3_db 10).dedup = [15] := by decide
    have hcount : (recent_dates c3_db 10).count 15 = 1 := by decide
    rw [hded, List.mergeSort_singleton]
    simp [hcount]
  · decide

/-! ### C10 -/

/-- Database reachable through the operations in which an inactive or
unregistered professor has records: one active professor P1 and two
records on day 1, one by P1 and one by the unregistered id GHOST. -/
def c10_db : DB :=
  { dbEmpty with
    professors := [⟨"P1", "Ana", "CS", "", "a@x", 0, true⟩]
    attendance_records := [⟨1, "P1", some 1, 1, 480, none, "Present", "", "", ""⟩,
      ⟨2, "GHOST", some 1, 1, 485, none, "Present", "", "", ""⟩] }

/-- C10: attended_today counts distinct professor_id values over the
bare records table — unchanged under any replacement of the professors
table — while total_professors counts only active professors and
absent_today is their difference; consequently, at c10_db the absent
count is negative and the attendance rate exceeds 100. -/
theorem c10_attended_ignores_professor_table :
    (∀ (db : DB) (ps : List Professor) (d : Date),
      (get_daily_attendance_stats { db with professors := ps } d).attended_today =
        (get_daily_attendance_stats db d).attended_today) ∧
    (∀ (db : DB) (d : Date),
      (get_daily_attendance_stats db d).attended_today =
        ((db.attendance_records.filter (fun r => r.date == d)).map
          (·.professor_id)).dedup.length) ∧
    (∀ (db : DB) (d : Date),
      (get_daily_attendance_stats db d).total_professors =
        (db.professors.filter (·.is_active)).length) ∧
    (∀ (db : DB) (d : Date),
      (get_daily_attendance_stats db d).absent_today =
        ((get_daily_attendance_stats db d).total_professors : Int) -
          ((get_daily_attendance_stats db d).attended_today : Int)) ∧
    ((get_daily_attendance_stats c10_db 1).absent_today < 0 ∧
      (get_daily_attendance_stats c10_db 1).attendance_rate > 100) := by
  refine ⟨fun db ps d => rfl, fun db d => rfl, fun db d => rfl, fun db d => rfl,
    by decide, ?_⟩
  have h1 : (get_daily_attendance_stats c10_db 1).attended_today = 2 := by decide
  have h2 : (get_daily_attendance_stats c10_db 1).total_professors = 1 := by decide
  have hrate : (get_daily_attendance_stats c10_db 1).attendance_rate =
      if (get_daily_attendance_stats c10_db 1).total_professors > 0
      then ((get_daily_attendance_stats c10_db 1).attended_today : Rat) /
        ((get_daily_attendance_stats c10_db 1).total_professors : Rat) * 100
      else 0 := rfl
  rw [hrate, h1, h2]
  norm_num

end Attendance
